import Mathlib

/-!
Verification of SigmaChanBot (bot.py): shallow embedding of the bot's
pure data-model and store operations, and theorems about topic
resolution, group-id normalization, the JSON record stores and the
admin send handlers.

Modelling conventions:
* Python strings are Lean `String`s (ASCII behaviour of `str.lower`,
  `str.strip`, `str.isdigit`); `int(s)` on a token is `parsePyInt`
  (optional sign followed by digits — whitespace and underscore
  separators never occur in the tokens produced by `str.split`).
* Python dicts (always loaded from / dumped to JSON, hence with string
  keys and insertion order) are association lists `List (String × α)`.
* A raised exception is `none` / `Except.error`; fallible external
  queries (the manual-mapping lookup, the live forum-topic list) are
  passed in as `Except`-valued oracles.
-/

namespace SigmaChan

/-- The two characters removed by `topic_input.strip('"\'')`. -/
def isQuoteChar (c : Char) : Bool := c == '"' || c == '\''

/-- Remove characters satisfying `p` from both ends of a list
(the behaviour of Python `str.strip`). -/
def stripEnds (p : Char → Bool) (l : List Char) : List Char :=
  ((l.dropWhile p).reverse.dropWhile p).reverse

/-- Python `s.strip(chars)` for a character class `p`. -/
def pyStripChars (p : Char → Bool) (s : String) : String :=
  ⟨stripEnds p s.data⟩

/-- `topic_input.strip('"\'')` from `_resolve_topic_id`. -/
def stripQuotes (s : String) : String := pyStripChars isQuoteChar s

/-- Python `s.strip()` (whitespace at both ends). -/
def pyStripWS (s : String) : String := pyStripChars Char.isWhitespace s

/-- Python `s.lower()` (ASCII model). -/
def pyLower (s : String) : String := ⟨s.data.map Char.toLower⟩

/-- Python `s.isdigit()` (ASCII model): nonempty and all digits. -/
def pyIsdigit (s : String) : Bool := !s.data.isEmpty && s.data.all Char.isDigit

/-- Python `s.startswith(pre)` (structural, so that it reduces inside
the kernel, unlike `String.startsWith`). -/
def pyStartsWith (pre s : String) : Bool := pre.data.isPrefixOf s.data

/-- Numeric value of a digit character. -/
def charVal (c : Char) : Nat := c.toNat - 48

/-- Value of a big-endian digit-character list, as read by `int()`. -/
def digitsToNat (l : List Char) : Nat := l.foldl (fun a c => 10 * a + charVal c) 0

/-- `int(s)` for a purely-numeric (digit) string. -/
def strToNat (s : String) : Nat := digitsToNat s.data

/-- The decimal digit characters. -/
def digitChar : Nat → Char
  | 0 => '0' | 1 => '1' | 2 => '2' | 3 => '3' | 4 => '4'
  | 5 => '5' | 6 => '6' | 7 => '7' | 8 => '8' | _ => '9'

/-- Little-endian base-10 digits, fuel-based so that it reduces inside
the kernel (`fuel ≥ n` suffices). -/
def natDigitsAux : Nat → Nat → List Nat
  | 0, _ => []
  | fuel + 1, n => if n = 0 then [] else n % 10 :: natDigitsAux fuel (n / 10)

/-- Little-endian base-10 digits of `n`. -/
def natDigits (n : Nat) : List Nat := natDigitsAux n n

/-- Python `str(n)` for a natural number. -"0" for zero, otherwise the
base-10 digits most-significant first. -/
def natToString (n : Nat) : String :=
  if n = 0 then "0" else ⟨((natDigits n).map digitChar).reverse⟩

/-- Python `str(n)` for an integer (a `-` sign followed by the digits
when negative). -/
def intToString : Int → String
  | .ofNat n => natToString n
  | .negSucc n => ⟨'-' :: (natToString (n + 1)).data⟩

/-- `int()` on a character list: optional sign, then digits; `none`
models the `ValueError` raise. -/
def parseIntL : List Char → Option Int
  | [] => none
  | c :: rest =>
    if c == '-' then
      if !rest.isEmpty && rest.all Char.isDigit then some (-(digitsToNat rest : Int)) else none
    else if c == '+' then
      if !rest.isEmpty && rest.all Char.isDigit then some ((digitsToNat rest : Int)) else none
    else if (c :: rest).all Char.isDigit then some ((digitsToNat (c :: rest) : Int)) else none

/-- Python `int(s)` on a token string (`none` = raises `ValueError`). -/
def parsePyInt (s : String) : Option Int := parseIntL s.data

/- ### Python dicts as insertion-ordered association lists -/

/-- `d[k]` / `d.get(k)`: first binding of `k` (keys are unique in any
dict produced by the code). -/
def alookup (k : String) : List (String × α) → Option α
  | [] => none
  | (k', v) :: rest => if k' = k then some v else alookup k rest

/-- `d[k] = v`: update in place if the key exists (preserving insertion
order), otherwise append at the end. -/
def dictSet (k : String) (v : α) : List (String × α) → List (String × α)
  | [] => [(k, v)]
  | (k', v') :: rest => if k' = k then (k', v) :: rest else (k', v') :: dictSet k v rest

/-- `del d[k]`: drop the binding of `k`. -/
def dictErase (k : String) : List (String × α) → List (String × α)
  | [] => []
  | (k', v') :: rest => if k' = k then rest else (k', v') :: dictErase k rest

/-- `k in d`. -/
def dictMem (k : String) (d : List (String × α)) : Bool :=
  (alookup k d).isSome

/- ### Group identifier helpers (bot.py `_normalize_group_id`,
`_get_group_id_from_index`) -/

/-- A value of the managed-groups store: `{"name": ..., "restrictions": [...]}`. -/
structure GroupInfo where
  name : String
  restrictions : List String
deriving DecidableEq, Repr

/-- The managed-groups store (`managed_groups.json`): group-id string →
info, in insertion order. -/
abbrev GroupsStore := List (String × GroupInfo)

/-- `_normalize_group_id` from bot.py: parse the string; negative ids
pass through, non-negative ids are shifted into the `-100...`
supergroup space. `none` models the unparseable-string case, where the
`except` handler itself re-raises `int(group_id_str)`. -/
def _normalize_group_id (group_id_str : String) : Option Int :=
  match parsePyInt group_id_str with
  | some gid => some (if gid < 0 then gid else -1000000000000 - gid)
  | none => none

/-- `_get_group_id_from_index` from bot.py: a numeric token in `[1, 999]`
that is at most the number of managed groups selects the key at that
1-based position; any other numeric token is passed through as a
literal id. Returns `(group_id_int, group_id_str, is_index_based)`;
`none` models the exception escaping when the token is not numeric
(both the `try` and the `except` branch call `int(index_or_id)`). -/
def _get_group_id_from_index (groups : GroupsStore) (index_or_id : String) :
    Option (Int × String × Bool) :=
  match parsePyInt index_or_id with
  | none => none
  | some val =>
    let group_ids : List String := groups.map Prod.fst
    if 1 ≤ val ∧ val ≤ 999 ∧ val ≤ (group_ids.length : Int) then
      match group_ids.get? (val.toNat - 1) with
      | none => some (val, index_or_id, false)
      | some k =>
        match parsePyInt k with
        | some n => some (n, k, true)
        | none => some (val, index_or_id, false)
    else
      some (val, index_or_id, false)

/- ### Manual topic-name mappings (`topics.json`) -/

/-- The topics store: chat-id string → (lower-cased topic name → topic id). -/
abbrev TopicsStore := List (String × List (String × Int))

/-- `add_topic_mapping` from bot.py: ensure the chat's sub-dict exists,
then bind `topic_name.lower()` to `topic_id`. -/
def add_topic_mapping (topics : TopicsStore) (chat_id : Int) (topic_name : String)
    (topic_id : Int) : TopicsStore :=
  let chat_id_str := intToString chat_id
  let sub := (alookup chat_id_str topics).getD []
  dictSet chat_id_str (dictSet (pyLower topic_name) topic_id sub) topics

/-- `get_topic_id_by_name` from bot.py: look `topic_name.lower()` up in
the chat's sub-dict (note: lower-cased but NOT stripped). -/
def get_topic_id_by_name (topics : TopicsStore) (chat_id : Int) (topic_name : String) :
    Option Int :=
  match alookup (intToString chat_id) topics with
  | some sub => alookup (pyLower topic_name) sub
  | none => none

/- ### Topic resolution (`_resolve_topic_id`) -/

/-- A live forum topic as seen through `client.get_forum_topics`. -/
structure ForumTopic where
  id : Int
  title : String
deriving DecidableEq, Repr

/-- Python truthiness of an `Optional[int]`: `None` and `0` are falsy. -/
def pyTruthy : Option Int → Bool
  | none => false
  | some n => n != 0

/-- `clean_input.split('_')[1]`: the segment between the first and the
second underscore (total here because callers guarantee an underscore
is present via `startswith('topic_')`). -/
def afterUnderscoreSeg (s : String) : String :=
  match (s.data.dropWhile (fun c => c != '_')) with
  | [] => ""
  | _ :: rest => ⟨rest.takeWhile (fun c => c != '_')⟩

/-- The live-list scan in `_resolve_topic_id`: first topic whose
lower-cased, stripped title equals the lower-cased, stripped cleaned
input; yields its id (and, in the code, persists the mapping). -/
def findLiveTopic (clean_input : String) (topics : List ForumTopic) : Option Int :=
  match topics.find?
      (fun t => pyStripWS (pyLower clean_input) == pyStripWS (pyLower t.title)) with
  | some t => some t.id
  | none => none

/-- The name-resolution tail of `_resolve_topic_id`: manual mapping
first (taken only when truthy), then the live forum-topic list. A
failing manual lookup is caught by the middle `except` and falls
straight to `return None` (the live list is not tried); a failing live
query is caught and likewise yields `None`. -/
def resolveByName (lookupM : String → Except Unit (Option Int))
    (live : Except Unit (List ForumTopic)) (clean_input : String) : Option Int :=
  match lookupM clean_input with
  | .error _ => none
  | .ok manual_topic_id =>
    if pyTruthy manual_topic_id then manual_topic_id
    else
      match live with
      | .error _ => none
      | .ok topics => findLiveTopic clean_input topics

/-- `_resolve_topic_id` from bot.py, with the manual-mapping lookup and
the live topic query abstracted as oracles. Quotes are stripped FIRST;
then: a `topic_`-prefixed input whose post-underscore segment parses as
an integer yields it (`except ValueError: pass` falls through to name
resolution otherwise); else a purely numeric input yields its value;
else name resolution. The function is total: every failure path
returns `none`. -/
def _resolve_topic_id (lookupM : String → Except Unit (Option Int))
    (live : Except Unit (List ForumTopic)) (topic_input : String) : Option Int :=
  let clean_input := stripQuotes topic_input
  if pyStartsWith "topic_" clean_input then
    match parsePyInt (afterUnderscoreSeg clean_input) with
    | some topic_id => some topic_id
    | none => resolveByName lookupM live clean_input
  else if pyIsdigit clean_input then
    some ((strToNat clean_input : Nat) : Int)
  else
    resolveByName lookupM live clean_input

/- ### Captured messages (`messages.json`) and users (`users.json`) -/

/-- The fields of an inbound Pyrogram `Message` read by
`add_message_record` / `record_user_interaction`. -/
structure PyMessage where
  message_id : Option Int
  chat_id : Option Int
  chat_title : Option String
  chat_first_name : Option String
  from_id : Option Int
  from_username : Option String
  from_first : Option String
  text : Option String
  caption : Option String
  date : Option Int
deriving DecidableEq, Repr

/-- Python `a or b` for optional strings (empty strings are falsy). -/
def pyOrStr (a b : Option String) : Option String :=
  match a with
  | some s => if s ≠ "" then some s else b
  | none => b

/-- Python `a or b or ''`. -/
def pyOrStrD (a b : Option String) : String :=
  (pyOrStr a b).getD ""

/-- A record of the captured-messages store. -/
structure MsgRecord where
  id : Int
  message_id : Option Int
  chat_id : Option Int
  chat_title : Option String
  from_id : Option Int
  from_username : Option String
  from_first : Option String
  text : String
  date : Int
  handled : Bool
  handled_by : Option Int
  handled_at : Option Int
deriving DecidableEq, Repr

/-- The captured-messages store: index string → record. -/
abbrev MessagesStore := List (String × MsgRecord)

/-- The numeric keys of the messages store
(`[int(k) for k in messages.keys() if k.isdigit()]`). -/
def numericKeys (messages : MessagesStore) : List Nat :=
  ((messages.map Prod.fst).filter pyIsdigit).map strToNat

/-- `max(numeric_keys, default=0)`. -/
def maxNumericKey (messages : MessagesStore) : Nat :=
  (numericKeys messages).foldl max 0

/-- The record built by `add_message_record` for index `idx`. -/
def buildMsgRecord (msg : PyMessage) (now : Int) (idx : Nat) : MsgRecord :=
  { id := (idx : Int)
    message_id := msg.message_id
    chat_id := msg.chat_id
    chat_title := pyOrStr msg.chat_title msg.chat_first_name
    from_id := msg.from_id
    from_username := msg.from_username
    from_first := msg.from_first
    text := pyOrStrD msg.text msg.caption
    date := msg.date.getD now
    handled := false
    handled_by := none
    handled_at := none }

/-- The record built by the `except`-fallback of `add_message_record`:
identical except that `date` is `int(time.time())` itself, not the
message's timestamp. -/
def buildMsgRecordFallback (msg : PyMessage) (now : Int) (idx : Nat) : MsgRecord :=
  { buildMsgRecord msg now idx with date := now }

/-- The fallback's `while str(idx) in messages: idx += 1` loop: bump the
candidate index past colliding keys, returning the first free one. The
fuel only bounds the recursion; `maxNumericKey messages + 1` always
suffices, because a colliding key is the decimal string of the
candidate and hence a numeric key, so its value is at most
`maxNumericKey messages` — the loop is guaranteed to have exited by
then (proved in `bumpPastKeys_not_mem`). -/
def bumpPastKeys : Nat → MessagesStore → Nat → Nat
  | 0, _, idx => idx
  | fuel + 1, messages, idx =>
    if dictMem (natToString idx) messages then bumpPastKeys fuel messages (idx + 1)
    else idx

/-- `add_message_record` from bot.py (`now` is the wall clock
`int(time.time())`, also used as the record date when the message
carries none). On the normal path the index is
`max(numeric_keys, default=0) + 1`; when the `try` block raises
(`primaryRaises`, e.g. an I/O failure in `save_messages`), the
`except`-fallback path re-loads the store and allocates a
timestamp-based index instead: `int(time.time())` bumped past any
colliding keys. Both paths store the record under `str(idx)` and
return the index with the rewritten store. -/
def add_message_record (messages : MessagesStore) (msg : PyMessage) (now : Int)
    (primaryRaises : Bool) : Nat × MessagesStore :=
  if primaryRaises then
    let idx := bumpPastKeys (maxNumericKey messages + 1) messages now.toNat
    (idx, dictSet (natToString idx) (buildMsgRecordFallback msg now idx) messages)
  else
    let idx := maxNumericKey messages + 1
    (idx, dictSet (natToString idx) (buildMsgRecord msg now idx) messages)

/-- `mark_message_handled` from bot.py: if `str(idx)` is a key, set the
handled fields and save, returning `True`; otherwise leave the store
untouched and return `False`. -/
def mark_message_handled (messages : MessagesStore) (idx : Nat) (admin_id : Int)
    (now : Int) : Bool × MessagesStore :=
  let key := natToString idx
  match alookup key messages with
  | some r =>
    (true, dictSet key { r with handled := true, handled_by := some admin_id,
                                handled_at := some now } messages)
  | none => (false, messages)

/-- A record of the seen-users store. -/
structure UserRecord where
  id : Int
  first_name : String
  username : String
  last_seen : Int
  last_chat : Option Int
deriving DecidableEq, Repr

/-- The seen-users store: user-id string → record. -/
abbrev UsersStore := List (String × UserRecord)

/-- `record_user_interaction` from bot.py (happy path): overwrite the
user's entry wholesale. -/
def record_user_interaction (users : UsersStore) (user_id : Int)
    (first_name username : Option String) (chat : Option Int) (now : Int) : UsersStore :=
  dictSet (intToString user_id)
    { id := user_id
      first_name := (pyOrStr first_name none).getD ""
      username := (pyOrStr username none).getD ""
      last_seen := now
      last_chat := chat } users

/- ### Managed groups -/

/-- `add_managed_group` from bot.py: bind `str(group_id)` to a fresh
info record with no restrictions. -/
def add_managed_group (groups : GroupsStore) (group_id : Int) (group_name : String) :
    GroupsStore :=
  dictSet (intToString group_id) { name := group_name, restrictions := [] } groups

/-- `remove_managed_group` from bot.py: delete `str(group_id)` when
present. -/
def remove_managed_group (groups : GroupsStore) (group_id : Int) : GroupsStore :=
  dictErase (intToString group_id) groups

/- ### The combined store state (four independent JSON documents) -/

/-- The four JSON documents of the bot, as one state. Each mutator
rewrites exactly one of them. -/
structure BotStores where
  groups : GroupsStore
  users : UsersStore
  messages : MessagesStore
  topics : TopicsStore

/-- `add_managed_group` acting on the full state. -/
def stAddManagedGroup (st : BotStores) (gid : Int) (name : String) : BotStores :=
  { st with groups := add_managed_group st.groups gid name }

/-- `remove_managed_group` acting on the full state. -/
def stRemoveManagedGroup (st : BotStores) (gid : Int) : BotStores :=
  { st with groups := remove_managed_group st.groups gid }

/-- `add_topic_mapping` acting on the full state. -/
def stAddTopicMapping (st : BotStores) (chat : Int) (name : String) (tid : Int) :
    BotStores :=
  { st with topics := add_topic_mapping st.topics chat name tid }

/-- `mark_message_handled` acting on the full state. -/
def stMarkMessageHandled (st : BotStores) (idx : Nat) (admin : Int) (now : Int) :
    BotStores :=
  { st with messages := (mark_message_handled st.messages idx admin now).2 }

/-- `add_message_record` acting on the full state. -/
def stAddMessageRecord (st : BotStores) (msg : PyMessage) (now : Int)
    (primaryRaises : Bool) : BotStores :=
  { st with messages := (add_message_record st.messages msg now primaryRaises).2 }

/-- `record_user_interaction` acting on the full state. -/
def stRecordUserInteraction (st : BotStores) (uid : Int)
    (first username : Option String) (chat : Option Int) (now : Int) : BotStores :=
  { st with users := record_user_interaction st.users uid first username chat now }

/- ### The JSON store loaders -/

/-- A JSON value, as produced by `json.load`. -/
inductive Json where
  | obj : List (String × Json) → Json
  | arr : List Json → Json
  | str : String → Json
  | num : Int → Json
  | bool : Bool → Json
  | null : Json

/-- Whether a JSON value is an object (a Python dict). -/
def Json.isDict : Json → Bool
  | .obj _ => true
  | _ => false

/-- The state of one backing file, combining `os.path.exists` and the
outcome of `json.load`. -/
inductive FileState where
  | absent : FileState
  | unparseable : FileState
  | parsed : Json → FileState

/-- The shared shape of the four loaders: `{}` when the file is absent
or `json.load` raises, otherwise whatever `json.load` produced (the
`-> dict` annotation is not enforced by Python). -/
def loadStoreFile : FileState → Json
  | .absent => .obj []
  | .unparseable => .obj []
  | .parsed v => v

/-- `load_managed_groups` from bot.py (bare `except:`). -/
def load_managed_groups (fs : FileState) : Json := loadStoreFile fs

/-- `load_users` from bot.py. -/
def load_users (fs : FileState) : Json := loadStoreFile fs

/-- `load_messages` from bot.py. -/
def load_messages (fs : FileState) : Json := loadStoreFile fs

/-- `load_topics` from bot.py. -/
def load_topics (fs : FileState) : Json := loadStoreFile fs

/- ### Admin send handlers (`handle_say`, `handle_send_photo`) -/

/-- The observable outcome of the `/say` handler (admin check passed):
which reply path was taken, whether the topic-not-resolved warning was
issued, and the send request (`chat, text, reply_to_message_id`) if one
was made. -/
structure SayOutcome where
  usageReply : Bool
  errorReply : Bool
  warnedTopic : Bool
  send : Option (Int × String × Option Int)
deriving DecidableEq, Repr

/-- `handle_say` from bot.py after the admin check, over the already
split `args` (`message.text.split(maxsplit=3)`); `resolve` stands for
`_resolve_topic_id` against the target chat. A topic token is resolved
only when the third argument neither starts with `topic_` nor is a
short (≤ 3 chars) digit string; when resolution is falsy the handler
warns and proceeds, sending with `reply_to_message_id=topic_id`
unchanged. -/
def handle_say (groups : GroupsStore) (resolve : String → Option Int)
    (args : List String) : SayOutcome :=
  if args.length < 3 then ⟨true, false, false, none⟩
  else
    let target_str := args.getD 1 ""
    let step : Option (Bool × String × Option Int) :=
      if 4 ≤ args.length then
        let potential_topic := args.getD 2 ""
        let text1 := args.getD 3 ""
        if !pyStartsWith "topic_" potential_topic
            && (!pyIsdigit potential_topic || decide (3 < potential_topic.length)) then
          match _get_group_id_from_index groups target_str with
          | none => none
          | some (_, group_id_str, _) =>
            match _normalize_group_id group_id_str with
            | none => none
            | some _ =>
              let topic_id := resolve potential_topic
              some (!(pyTruthy topic_id), text1, topic_id)
        else
          some (false, text1, none)
      else
        some (false, args.getD 2 "", none)
    match step with
    | none => ⟨false, true, false, none⟩
    | some (warned, text, topic_id) =>
      match _get_group_id_from_index groups target_str with
      | none => ⟨false, true, warned, none⟩
      | some (_, group_id_str, _) =>
        match _normalize_group_id group_id_str with
        | none => ⟨false, true, warned, none⟩
        | some normalized_gid => ⟨false, false, warned, some (normalized_gid, text, topic_id)⟩

/-- The observable outcome of the `/send_photo` handler (admin check
passed). `send` is the copy request `(chat, thread)` that was issued. -/
structure PhotoOutcome where
  usageReply : Bool
  errorReply : Bool
  groupNotFound : Bool
  warnedTopic : Bool
  send : Option (Int × Option Int)
  noPhotoReply : Bool
deriving DecidableEq, Repr

/-- `handle_send_photo` from bot.py after the admin check, over the
split `args` (`cmd_text.split(maxsplit=2)`), with `hasReplyPhoto` /
`hasPhoto` the photo-carrying cases. After group validation, an
optional third token is resolved to a topic; a falsy resolution warns
and continues, and every copy path then branches on the truthiness of
`topic_id`, so the photo is still sent, threadless. -/
def handle_send_photo (groups : GroupsStore) (resolve : String → Option Int)
    (args : List String) (hasReplyPhoto hasPhoto : Bool) : PhotoOutcome :=
  if args.length < 2 then ⟨true, false, false, false, none, false⟩
  else
    let target_str := args.getD 1 ""
    match _get_group_id_from_index groups target_str with
    | none => ⟨false, true, false, false, none, false⟩
    | some (_, group_id_str, _) =>
      match _normalize_group_id group_id_str with
      | none => ⟨false, true, false, false, none, false⟩
      | some normalized_gid =>
        if !(dictMem group_id_str groups || dictMem (intToString normalized_gid) groups) then
          ⟨false, false, true, false, none, false⟩
        else
          let topic_id_str : Option String :=
            if 3 ≤ args.length then some (args.getD 2 "") else none
          let topic_id : Option Int :=
            match topic_id_str with
            | some s => resolve s
            | none => none
          let warned := topic_id_str.isSome && !(pyTruthy topic_id)
          let thread : Option Int := if pyTruthy topic_id then topic_id else none
          if hasReplyPhoto then
            ⟨false, false, false, warned, some (normalized_gid, thread), false⟩
          else if hasPhoto then
            ⟨false, false, false, warned, some (normalized_gid, thread), false⟩
          else if 3 ≤ args.length then
            let path_arg := args.getD 2 ""
            if !(pyStartsWith "topic_" path_arg
                || (pyIsdigit path_arg && decide (path_arg.length < 4))) then
              ⟨false, false, false, warned, some (normalized_gid, topic_id), false⟩
            else
              ⟨false, false, false, warned, none, true⟩
          else
            ⟨false, false, false, warned, none, true⟩

/-- A concrete inbound message used by witnesses. -/
def msgW : PyMessage :=
  { message_id := some 11, chat_id := some (-100500), chat_title := some "G"
    chat_first_name := none, from_id := some 77, from_username := some "alice"
    from_first := some "Alice", text := some "hi", caption := none, date := some 100 }

/-- A concrete captured-messages store with numeric keys 3 and 7 and one
non-numeric key. -/
def msgStoreW : MessagesStore :=
  [("3", buildMsgRecord msgW 0 3), ("junk", buildMsgRecord msgW 0 0),
   ("7", buildMsgRecord msgW 0 7)]

/-- A concrete captured-messages store holding a numeric key larger
than any realistic clock value (such stores are reachable: the files
are plain JSON on disk, and the claim quantifies over every store
state). -/
def bigKeyStoreW : MessagesStore :=
  [("9999999999999", buildMsgRecord msgW 0 1)]

/-- A concrete four-store state used by witnesses. -/
def stW : BotStores :=
  { groups := [("other", { name := "o", restrictions := [] }),
               (intToString 5, { name := "five", restrictions := [] })]
    users := [("other", { id := 7, first_name := "x", username := "y",
                          last_seen := 0, last_chat := none })]
    messages := msgStoreW
    topics := [("9", [("a", 1)]), (intToString 1, [("z", 2)])] }

/-- Topic resolution exactly as claim C1 words it (spec-side function,
for comparison with `_resolve_topic_id`): steps 1 and 2 inspect the
raw token, quote characters are stripped only in step 3, and a
manual-mapping hit is returned unconditionally, before the live list
is consulted. -/
def resolveTopicClaimC1 (lookupM : String → Except Unit (Option Int))
    (live : Except Unit (List ForumTopic)) (token : String) : Option Int :=
  if pyStartsWith "topic_" token && pyIsdigit (afterUnderscoreSeg token) then
    some ((strToNat (afterUnderscoreSeg token) : Nat) : Int)
  else if pyIsdigit token then
    some ((strToNat token : Nat) : Int)
  else
    let nm := stripQuotes token
    match lookupM nm with
    | .error _ => none
    | .ok (some tid) => some tid
    | .ok none =>
      match live with
      | .error _ => none
      | .ok topics => findLiveTopic nm topics

/-- Topic resolution as the amended claim words it: surrounding quote
characters are stripped from the token FIRST; then a `topic_`-prefixed
stripped token whose first post-underscore segment parses as an
integer yields it (falling through to name resolution when the parse
fails); else a purely numeric stripped token yields its value; else
the persisted manual mapping is consulted before the live topic list,
its entry being returned whenever it is truthy (present and nonzero),
and otherwise the live list's first case-insensitive trimmed title
match wins. -/
def resolveTopicAmendedC1 (lookupM : String → Except Unit (Option Int))
    (live : Except Unit (List ForumTopic)) (token : String) : Option Int :=
  let t := stripQuotes token
  match (if pyStartsWith "topic_" t then parsePyInt (afterUnderscoreSeg t) else none) with
  | some tid => some tid
  | none =>
    if !pyStartsWith "topic_" t && pyIsdigit t then
      some ((strToNat t : Nat) : Int)
    else
      match lookupM t with
      | .error _ => none
      | .ok m =>
        if pyTruthy m then m
        else
          match live with
          | .error _ => none
          | .ok topics => findLiveTopic t topics

theorem natDigitsAux_eq_digits (fuel n : Nat) (h : n ≤ fuel) :
    natDigitsAux fuel n = Nat.digits 10 n := by
  induction fuel generalizing n with
  | zero =>
    have : n = 0 := Nat.le_zero.mp h
    subst this
    simp [natDigitsAux, Nat.digits_zero]
  | succ fuel ih =>
    by_cases hn : n = 0
    · subst hn
      simp [natDigitsAux, Nat.digits_zero]
    · rw [natDigitsAux, if_neg hn,
        ih (n / 10) (by omega),
        Nat.digits_def' (by norm_num : (1:Nat) < 10) (Nat.pos_of_ne_zero hn)]

theorem natDigits_eq_digits (n : Nat) : natDigits n = Nat.digits 10 n :=
  natDigitsAux_eq_digits n n le_rfl

/- ### Decimal render/parse round-trip -/

theorem charVal_digitChar {d : Nat} (h : d < 10) : charVal (digitChar d) = d := by
  interval_cases d <;> rfl

theorem isDigit_digitChar {d : Nat} (h : d < 10) : (digitChar d).isDigit = true := by
  interval_cases d <;> rfl

theorem digitsToNat_reverse_map (ds : List Nat) (h : ∀ d ∈ ds, d < 10) :
    digitsToNat ((ds.map digitChar).reverse) = Nat.ofDigits 10 ds := by
  unfold digitsToNat
  rw [List.foldl_reverse, List.foldr_map]
  induction ds with
  | nil => rfl
  | cons d ds ih =>
    rw [List.foldr_cons, Nat.ofDigits_cons,
      ih (fun x hx => h x (List.mem_cons_of_mem _ hx)),
      charVal_digitChar (h d (List.mem_cons_self _ _))]
    ring

theorem natToString_data (n : Nat) (hn : n ≠ 0) :
    (natToString n).data = ((Nat.digits 10 n).map digitChar).reverse := by
  unfold natToString
  rw [if_neg hn, natDigits_eq_digits]

theorem strToNat_natToString (n : Nat) : strToNat (natToString n) = n := by
  by_cases hn : n = 0
  · subst hn; rfl
  · unfold strToNat
    rw [natToString_data n hn,
      digitsToNat_reverse_map _ (fun d hd => Nat.digits_lt_base (by norm_num) hd),
      Nat.ofDigits_digits]

theorem pyIsdigit_natToString (n : Nat) : pyIsdigit (natToString n) = true := by
  by_cases hn : n = 0
  · subst hn; rfl
  · unfold pyIsdigit
    rw [natToString_data n hn]
    have hne : Nat.digits 10 n ≠ [] := Nat.digits_ne_nil_iff_ne_zero.mpr hn
    have hne2 : ((Nat.digits 10 n).map digitChar).reverse ≠ [] := by
      simp only [ne_eq, List.reverse_eq_nil_iff, List.map_eq_nil_iff]
      exact hne
    rw [Bool.and_eq_true]
    constructor
    · cases hd : ((Nat.digits 10 n).map digitChar).reverse with
      | nil => exact absurd hd hne2
      | cons a l => rfl
    · simp only [List.all_eq_true, List.mem_reverse, List.mem_map]
      rintro c ⟨d, hd, rfl⟩
      exact isDigit_digitChar (Nat.digits_lt_base (by norm_num) hd)

theorem isDigit_ne_dash {c : Char} (h : c.isDigit = true) :
    (c == '-') = false ∧ (c == '+') = false := by
  constructor <;> {
    rw [beq_eq_false_iff_ne]
    rintro rfl
    simp [Char.isDigit] at h
  }

theorem parseIntL_digits (l : List Char) (h1 : l ≠ []) (h2 : l.all Char.isDigit = true) :
    parseIntL l = some ((digitsToNat l : Nat) : Int) := by
  match l with
  | c :: rest =>
    have hc : c.isDigit = true := by
      simp only [List.all_eq_true] at h2
      exact h2 c (List.mem_cons_self _ _)
    simp only [parseIntL, (isDigit_ne_dash hc).1, (isDigit_ne_dash hc).2,
      Bool.false_eq_true, if_false, h2, if_true]

theorem parsePyInt_natToString (n : Nat) : parsePyInt (natToString n) = some (n : Int) := by
  unfold parsePyInt
  have hne : (natToString n).data ≠ [] := by
    by_cases hn : n = 0
    · subst hn; simp [natToString]
    · rw [natToString_data n hn]
      simp only [ne_eq, List.reverse_eq_nil_iff, List.map_eq_nil_iff]
      exact Nat.digits_ne_nil_iff_ne_zero.mpr hn
  have hall : (natToString n).data.all Char.isDigit = true := by
    have := pyIsdigit_natToString n
    unfold pyIsdigit at this
    exact (Bool.and_eq_true _ _ |>.mp this).2
  rw [parseIntL_digits _ hne hall]
  have : digitsToNat (natToString n).data = n := strToNat_natToString n
  rw [this]

theorem parsePyInt_intToString (n : Int) : parsePyInt (intToString n) = some n := by
  match n with
  | .ofNat m => exact parsePyInt_natToString m
  | .negSucc m =>
    unfold intToString parsePyInt parseIntL
    simp only [beq_self_eq_true, if_true]
    have hne : (natToString (m + 1)).data ≠ [] := by
      rw [natToString_data _ (Nat.succ_ne_zero m)]
      simp only [ne_eq, List.reverse_eq_nil_iff, List.map_eq_nil_iff]
      exact Nat.digits_ne_nil_iff_ne_zero.mpr (Nat.succ_ne_zero m)
    have hall : (natToString (m + 1)).data.all Char.isDigit = true := by
      have := pyIsdigit_natToString (m + 1)
      unfold pyIsdigit at this
      exact (Bool.and_eq_true _ _ |>.mp this).2
    have hEmpty : (natToString (m + 1)).data.isEmpty = false := by
      cases hd : (natToString (m + 1)).data with
      | nil => exact absurd hd hne
      | cons a l => rfl
    simp only [hEmpty, hall, Bool.not_false, Bool.and_self, if_true]
    have : digitsToNat (natToString (m + 1)).data = m + 1 := strToNat_natToString (m + 1)
    rw [this]
    rfl

theorem alookup_dictSet_self (k : String) (v : α) (d : List (String × α)) :
    alookup k (dictSet k v d) = some v := by
  induction d with
  | nil => simp [alookup, dictSet]
  | cons p rest ih =>
    obtain ⟨k', v'⟩ := p
    by_cases h : k' = k
    · subst h; simp [alookup, dictSet]
    · simp [alookup, dictSet, h, ih]

theorem alookup_dictSet_ne (k k' : String) (hk : k' ≠ k) (v : α) (d : List (String × α)) :
    alookup k' (dictSet k v d) = alookup k' d := by
  have hne : ¬ k = k' := fun hh => hk hh.symm
  induction d with
  | nil => simp [alookup, dictSet, hne]
  | cons p rest ih =>
    obtain ⟨k0, v0⟩ := p
    by_cases h : k0 = k
    · subst h
      simp only [dictSet, if_pos rfl]
      simp [alookup, hne]
    · simp only [dictSet, if_neg h]
      by_cases h' : k0 = k'
      · subst h'; simp [alookup]
      · simp [alookup, h', ih]

theorem alookup_dictErase_ne (k k' : String) (hk : k' ≠ k) (d : List (String × α)) :
    alookup k' (dictErase k d) = alookup k' d := by
  have hne : ¬ k = k' := fun hh => hk hh.symm
  induction d with
  | nil => simp [dictErase]
  | cons p rest ih =>
    obtain ⟨k0, v0⟩ := p
    by_cases h : k0 = k
    · subst h
      simp only [dictErase, if_pos rfl]
      simp [alookup, hne]
    · simp only [dictErase, if_neg h]
      by_cases h' : k0 = k'
      · subst h'; simp [alookup]
      · simp [alookup, h', ih]

theorem mem_keys_dictSet (k : String) (v : α) (d : List (String × α)) :
    k ∈ (dictSet k v d).map Prod.fst := by
  induction d with
  | nil => simp [dictSet]
  | cons p rest ih =>
    obtain ⟨k', v'⟩ := p
    by_cases h : k' = k
    · subst h; simp [dictSet]
    · simp only [dictSet, if_neg h, List.map_cons, List.mem_cons]
      exact Or.inr ih

/- ### Claim theorems -/

/-- C3: for every decimal integer string `g`, `_normalize_group_id g`
equals `int(g)` when that value is negative and `-1000000000000 - int(g)`
when it is non-negative; the result is always negative, and
already-negative identifiers pass through unchanged. -/
theorem normalize_group_id_spec (g : String) (n : Int) (h : parsePyInt g = some n) :
    _normalize_group_id g = some (if n < 0 then n else -1000000000000 - n) ∧
    (∀ r, _normalize_group_id g = some r → r < 0) ∧
    (n < 0 → _normalize_group_id g = some n) := by
  have hbody : _normalize_group_id g = some (if n < 0 then n else -1000000000000 - n) := by
    simp only [_normalize_group_id, h]
  refine ⟨hbody, ?_, ?_⟩
  · intro r hr
    rw [hbody] at hr
    simp only [Option.some.injEq] at hr
    subst hr
    by_cases hn : n < 0
    · rw [if_pos hn]; exact hn
    · rw [if_neg hn]; omega
  · intro hn
    rw [hbody, if_pos hn]

/-- C3 witness: `_normalize_group_id` evaluated on the tokens `"7"` and
`"-5"`. -/
theorem normalize_group_id_spec_witness :
    _normalize_group_id "7" = some (-1000000000007) ∧
    _normalize_group_id "-5" = some (-5) := by
  constructor
  · have h := (normalize_group_id_spec "7" 7 (by decide)).1
    norm_num at h
    exact h
  · exact (normalize_group_id_spec "-5" (-5) (by decide)).2.2 (by norm_num)

/-- C9 (implicit): `_normalize_group_id` is idempotent — applying it to
the decimal string of its own result gives the same value, because the
result is always negative and negative identifiers pass through. -/
theorem normalize_group_id_idempotent (g : String) (n r : Int)
    (h : parsePyInt g = some n) (hr : _normalize_group_id g = some r) :
    _normalize_group_id (intToString r) = some r := by
  have hneg : r < 0 := (normalize_group_id_spec g n h).2.1 r hr
  simp only [_normalize_group_id, parsePyInt_intToString r, if_pos hneg]

/-- C9 witness: double application on the tokens `"7"` and `"-5"`. -/
theorem normalize_group_id_idempotent_witness :
    _normalize_group_id (intToString (-1000000000007)) = some (-1000000000007) ∧
    _normalize_group_id (intToString (-5)) = some (-5) := by
  constructor
  · exact normalize_group_id_idempotent "7" 7 (-1000000000007) (by decide)
      normalize_group_id_spec_witness.1
  · exact normalize_group_id_idempotent "-5" (-5) (-5) (by decide)
      normalize_group_id_spec_witness.2

/-- C2: a numeric token whose value is in `[1, 999]` and at most the
number of managed groups selects the group id at that 1-based position
of the insertion-ordered managed-group list (`is_index_based = true`);
every other numeric token is returned unchanged as a literal chat id
(`is_index_based = false`). -/
theorem get_group_id_from_index_spec (groups : GroupsStore) (tok : String) (val : Int)
    (h : parsePyInt tok = some val) :
    (∀ key n, 1 ≤ val → val ≤ 999 → val ≤ ((groups.map Prod.fst).length : Int) →
      (groups.map Prod.fst).get? (val.toNat - 1) = some key →
      parsePyInt key = some n →
      _get_group_id_from_index groups tok = some (n, key, true)) ∧
    (¬ (1 ≤ val ∧ val ≤ 999 ∧ val ≤ ((groups.map Prod.fst).length : Int)) →
      _get_group_id_from_index groups tok = some (val, tok, false)) := by
  constructor
  · intro key n h1 h2 h3 hkey hn
    simp only [_get_group_id_from_index, h]
    rw [if_pos ⟨h1, h2, h3⟩]
    simp only [hkey, hn]
  · intro hcond
    simp only [_get_group_id_from_index, h]
    rw [if_neg hcond]

/-- C2 witness: a two-group store; the token `"2"` selects the second
key, the tokens `"1000"` and `"3"` fall through as literal ids. -/
theorem get_group_id_from_index_spec_witness :
    _get_group_id_from_index
        [("-1001", ⟨"g", []⟩), ("42", ⟨"h", []⟩)] "2" = some (42, "42", true) ∧
    _get_group_id_from_index
        [("-1001", ⟨"g", []⟩), ("42", ⟨"h", []⟩)] "1000" = some (1000, "1000", false) ∧
    _get_group_id_from_index
        [("-1001", ⟨"g", []⟩), ("42", ⟨"h", []⟩)] "3" = some (3, "3", false) := by
  refine ⟨?_, ?_, ?_⟩
  · exact (get_group_id_from_index_spec _ "2" 2 (by decide)).1 "42" 42
      (by norm_num) (by norm_num) (by norm_num) (by decide) (by decide)
  · exact (get_group_id_from_index_spec _ "1000" 1000 (by decide)).2 (by norm_num)
  · exact (get_group_id_from_index_spec _ "3" 3 (by decide)).2 (by norm_num)

/-- C4 counterexample: the claim says lookup is insensitive to
surrounding whitespace, but after `add_topic_mapping(1, "General", 5)`
the lookup of `" General"` — whose lower-cased, trimmed form equals
that of `"General"` — returns `None`, not `5`: the store keys are
lower-cased only, never trimmed. -/
theorem topic_mapping_not_trimmed :
    pyStripWS (pyLower " General") = pyStripWS (pyLower "General") ∧
    get_topic_id_by_name
      (add_topic_mapping ([] : TopicsStore) 1 "General" 5) 1 " General" = none := by
  exact ⟨rfl, rfl⟩

/-- C4 (amended): after `add_topic_mapping(chat, name, id)`,
`get_topic_id_by_name(chat, n)` returns `id` for every string `n` whose
lower-cased form equals the lower-cased form of `name` — lookup is
insensitive to letter case but NOT to surrounding whitespace; a mapping
persisted from a successful live topic-list lookup (stored under the
lower-cased, trimmed topic title) is therefore found by a later lookup
of any token with that same lower-cased form. -/
theorem topic_mapping_roundtrip (ts : TopicsStore) (chat : Int) (name n : String)
    (tid : Int) (h : pyLower n = pyLower name) :
    get_topic_id_by_name (add_topic_mapping ts chat name tid) chat n = some tid := by
  unfold get_topic_id_by_name add_topic_mapping
  simp only [alookup_dictSet_self, h, alookup_dictSet_self]

/-- C4 witness: case-insensitive recall of a persisted mapping on a
concrete store. -/
theorem topic_mapping_roundtrip_witness :
    get_topic_id_by_name
      (add_topic_mapping [(intToString 1, [("old", 9)])] 1 "General" 5) 1 "GENERAL"
      = some 5 := by
  exact topic_mapping_roundtrip [(intToString 1, [("old", 9)])] 1 "General" "GENERAL" 5 rfl

/-- C10 counterexample: the loaders do not always return a dict — a
backing file that parses to a JSON array (Python's `json.load` happily
returns lists) is passed through as-is, unconverted. -/
theorem load_store_nondict :
    load_managed_groups (.parsed (.arr [])) = .arr [] ∧
    (load_managed_groups (.parsed (.arr []))).isDict = false := by
  exact ⟨rfl, rfl⟩

/-- C10 (amended): the four loaders are total — for every filesystem
state each returns a value and never raises; when the backing file is
absent or fails to parse, each returns the empty dict; when the file
parses, the parsed JSON value is returned verbatim (it is a dict
exactly when the file holds a JSON object). -/
theorem load_stores_total :
    (load_managed_groups .absent = .obj [] ∧ load_managed_groups .unparseable = .obj [] ∧
      ∀ v, load_managed_groups (.parsed v) = v) ∧
    (load_users .absent = .obj [] ∧ load_users .unparseable = .obj [] ∧
      ∀ v, load_users (.parsed v) = v) ∧
    (load_messages .absent = .obj [] ∧ load_messages .unparseable = .obj [] ∧
      ∀ v, load_messages (.parsed v) = v) ∧
    (load_topics .absent = .obj [] ∧ load_topics .unparseable = .obj [] ∧
      ∀ v, load_topics (.parsed v) = v) := by
  refine ⟨⟨rfl, rfl, fun v => rfl⟩, ⟨rfl, rfl, fun v => rfl⟩,
    ⟨rfl, rfl, fun v => rfl⟩, ⟨rfl, rfl, fun v => rfl⟩⟩

theorem le_foldl_max_init (l : List Nat) (a : Nat) : a ≤ l.foldl max a := by
  induction l generalizing a with
  | nil => exact le_rfl
  | cons x xs ih => exact le_trans (le_max_left a x) (ih (max a x))

theorem le_foldl_max_of_mem (l : List Nat) (a x : Nat) (hx : x ∈ l) :
    x ≤ l.foldl max a := by
  induction l generalizing a with
  | nil => cases hx
  | cons y ys ih =>
    rcases List.mem_cons.mp hx with rfl | hmem
    · exact le_trans (le_max_right a x) (le_foldl_max_init ys (max a x))
    · exact ih (max a y) hmem

theorem mem_numericKeys_dictSet (messages : MessagesStore) (idx : Nat) (r : MsgRecord) :
    idx ∈ numericKeys (dictSet (natToString idx) r messages) := by
  unfold numericKeys
  refine List.mem_map.mpr ⟨natToString idx, ?_, strToNat_natToString idx⟩
  exact List.mem_filter.mpr ⟨mem_keys_dictSet _ _ _, pyIsdigit_natToString idx⟩

theorem mem_keys_of_alookup (k : String) (d : List (String × α)) (v : α)
    (h : alookup k d = some v) : k ∈ d.map Prod.fst := by
  induction d with
  | nil => simp [alookup] at h
  | cons p rest ih =>
    obtain ⟨k', v'⟩ := p
    by_cases hk : k' = k
    · subst hk; simp
    · simp only [alookup, if_neg hk] at h
      simp [ih h]

theorem dictMem_natToString_le_max (messages : MessagesStore) (i : Nat)
    (h : dictMem (natToString i) messages = true) : i ≤ maxNumericKey messages := by
  unfold dictMem at h
  obtain ⟨r, hr⟩ := Option.isSome_iff_exists.mp h
  have hmem : natToString i ∈ messages.map Prod.fst := mem_keys_of_alookup _ _ _ hr
  have : i ∈ numericKeys messages := by
    unfold numericKeys
    refine List.mem_map.mpr ⟨natToString i, ?_, strToNat_natToString i⟩
    exact List.mem_filter.mpr ⟨hmem, pyIsdigit_natToString i⟩
  exact le_foldl_max_of_mem _ 0 _ this

theorem le_bumpPastKeys (fuel : Nat) (messages : MessagesStore) (idx : Nat) :
    idx ≤ bumpPastKeys fuel messages idx := by
  induction fuel generalizing idx with
  | zero => exact le_rfl
  | succ fuel ih =>
    unfold bumpPastKeys
    by_cases h : dictMem (natToString idx) messages = true
    · rw [if_pos h]
      exact le_trans (Nat.le_succ idx) (ih (idx + 1))
    · rw [if_neg h]

theorem bumpPastKeys_not_mem (fuel : Nat) (messages : MessagesStore) (idx : Nat)
    (h : maxNumericKey messages < idx + fuel) :
    dictMem (natToString (bumpPastKeys fuel messages idx)) messages = false := by
  induction fuel generalizing idx with
  | zero =>
    unfold bumpPastKeys
    by_cases hm : dictMem (natToString idx) messages = true
    · have := dictMem_natToString_le_max messages idx hm
      omega
    · exact Bool.eq_false_iff.mpr hm
  | succ fuel ih =>
    unfold bumpPastKeys
    by_cases hm : dictMem (natToString idx) messages = true
    · rw [if_pos hm]
      exact ih (idx + 1) (by omega)
    · rw [if_neg hm]
      exact Bool.eq_false_iff.mpr hm

/-- C7 (amended): every successful call of `add_message_record` stores
the new record under the returned index. On the normal path the index
is `max(numeric keys, default 0) + 1`, strictly greater than every
numeric key present before the call, so successive normal-path
captures get strictly increasing indices. On the exception-fallback
path the index is timestamp-based — the first value at or above
`int(time.time())` whose decimal string is not already a key — and
need not exceed the existing numeric keys. -/
theorem add_message_record_spec (messages : MessagesStore) (msg msg2 : PyMessage)
    (now now2 : Int) :
    ((∀ k ∈ numericKeys messages, k < (add_message_record messages msg now false).1) ∧
     alookup (natToString (add_message_record messages msg now false).1)
         (add_message_record messages msg now false).2
       = some (buildMsgRecord msg now (add_message_record messages msg now false).1) ∧
     (add_message_record messages msg now false).1
       < (add_message_record (add_message_record messages msg now false).2
           msg2 now2 false).1) ∧
    (now.toNat ≤ (add_message_record messages msg now true).1 ∧
     dictMem (natToString (add_message_record messages msg now true).1) messages
       = false ∧
     alookup (natToString (add_message_record messages msg now true).1)
         (add_message_record messages msg now true).2
       = some (buildMsgRecordFallback msg now
           (add_message_record messages msg now true).1)) := by
  refine ⟨⟨?_, ?_, ?_⟩, ?_, ?_, ?_⟩
  · intro k hk
    have : k ≤ maxNumericKey messages := le_foldl_max_of_mem _ 0 k hk
    have hidx : (add_message_record messages msg now false).1
        = maxNumericKey messages + 1 := rfl
    omega
  · exact alookup_dictSet_self _ _ _
  · have hmem : (add_message_record messages msg now false).1
        ∈ numericKeys (add_message_record messages msg now false).2 :=
      mem_numericKeys_dictSet messages _ _
    have : (add_message_record messages msg now false).1
        ≤ maxNumericKey (add_message_record messages msg now false).2 :=
      le_foldl_max_of_mem _ 0 _ hmem
    have hidx2 : (add_message_record (add_message_record messages msg now false).2
        msg2 now2 false).1
        = maxNumericKey (add_message_record messages msg now false).2 + 1 := rfl
    omega
  · exact le_bumpPastKeys (maxNumericKey messages + 1) messages now.toNat
  · exact bumpPastKeys_not_mem (maxNumericKey messages + 1) messages now.toNat (by omega)
  · exact alookup_dictSet_self _ _ _

/-- C7 witness: on a store with numeric keys `3` and `7` (and a junk
key), the normal path allocates index `8`, stores the record there,
and the next capture gets `9`; the fallback path at clock `100` stores
its record under the fresh index `100`. -/
theorem add_message_record_spec_witness :
    (3 ∈ numericKeys msgStoreW ∧ 3 < (add_message_record msgStoreW msgW 100 false).1) ∧
    (add_message_record msgStoreW msgW 100 false).1 = 8 ∧
    alookup (natToString 8) (add_message_record msgStoreW msgW 100 false).2
      = some (buildMsgRecord msgW 100 8) ∧
    (add_message_record (add_message_record msgStoreW msgW 100 false).2
      msgW 200 false).1 = 9 ∧
    (add_message_record msgStoreW msgW 100 true).1 = 100 ∧
    alookup (natToString 100) (add_message_record msgStoreW msgW 100 true).2
      = some (buildMsgRecordFallback msgW 100 100) := by
  have h := add_message_record_spec msgStoreW msgW msgW 100 200
  refine ⟨⟨by decide, h.1.1 3 (by decide)⟩, by decide, ?_, by decide, by decide, ?_⟩
  · have h8 : (add_message_record msgStoreW msgW 100 false).1 = 8 := by decide
    have hst := h.1.2.1
    rw [h8] at hst
    exact hst
  · have h100 : (add_message_record msgStoreW msgW 100 true).1 = 100 := by decide
    have hst := h.2.2.2
    rw [h100] at hst
    exact hst

/-- C7 counterexample: on the exception-fallback path (still a
successful, index-returning call) the timestamp-based index does NOT
exceed every numeric key present before the call — with clock
`1700000000` and a store already holding the numeric key
`9999999999999`, the call succeeds and stores its record under
`"1700000000"`, yet `1700000000 < 9999999999999`, so the claimed
strict-monotonicity of captured indices fails. -/
theorem add_message_record_fallback_nonmonotonic :
    (add_message_record bigKeyStoreW msgW 1700000000 true).1 = 1700000000 ∧
    (9999999999999 : Nat) ∈ numericKeys bigKeyStoreW ∧
    (add_message_record bigKeyStoreW msgW 1700000000 true).1 < 9999999999999 ∧
    alookup (natToString 1700000000)
        (add_message_record bigKeyStoreW msgW 1700000000 true).2
      = some (buildMsgRecordFallback msgW 1700000000 1700000000) := by
  refine ⟨by decide, by decide, by decide, by decide⟩

/-- C8: store independence — each mutating operation rewrites only its
own store (the other three JSON documents are untouched), and inside
the mutated store every entry other than the addressed one keeps its
value. For `add_topic_mapping` this holds both for the other chats'
sub-dicts and, within the addressed chat, for the other topic names;
for `add_message_record` it holds on the normal and on the
exception-fallback path alike. -/
theorem store_ops_frame (st : BotStores) (gid : Int) (gname : String) (chat : Int)
    (tname : String) (tid : Int) (idx : Nat) (admin : Int) (msg : PyMessage)
    (uid : Int) (ufirst uuser : Option String) (uchat : Option Int) (now : Int)
    (pf : Bool) :
    ((stAddManagedGroup st gid gname).users = st.users ∧
     (stAddManagedGroup st gid gname).messages = st.messages ∧
     (stAddManagedGroup st gid gname).topics = st.topics ∧
     ∀ k, k ≠ intToString gid →
       alookup k (stAddManagedGroup st gid gname).groups = alookup k st.groups) ∧
    ((stRemoveManagedGroup st gid).users = st.users ∧
     (stRemoveManagedGroup st gid).messages = st.messages ∧
     (stRemoveManagedGroup st gid).topics = st.topics ∧
     ∀ k, k ≠ intToString gid →
       alookup k (stRemoveManagedGroup st gid).groups = alookup k st.groups) ∧
    ((stAddTopicMapping st chat tname tid).groups = st.groups ∧
     (stAddTopicMapping st chat tname tid).users = st.users ∧
     (stAddTopicMapping st chat tname tid).messages = st.messages ∧
     (∀ k, k ≠ intToString chat →
       alookup k (stAddTopicMapping st chat tname tid).topics = alookup k st.topics) ∧
     ∀ nm, nm ≠ pyLower tname →
       alookup nm ((alookup (intToString chat)
           (stAddTopicMapping st chat tname tid).topics).getD [])
         = alookup nm ((alookup (intToString chat) st.topics).getD [])) ∧
    ((stMarkMessageHandled st idx admin now).groups = st.groups ∧
     (stMarkMessageHandled st idx admin now).users = st.users ∧
     (stMarkMessageHandled st idx admin now).topics = st.topics ∧
     ∀ k, k ≠ natToString idx →
       alookup k (stMarkMessageHandled st idx admin now).messages
         = alookup k st.messages) ∧
    ((stAddMessageRecord st msg now pf).groups = st.groups ∧
     (stAddMessageRecord st msg now pf).users = st.users ∧
     (stAddMessageRecord st msg now pf).topics = st.topics ∧
     ∀ k, k ≠ natToString (add_message_record st.messages msg now pf).1 →
       alookup k (stAddMessageRecord st msg now pf).messages = alookup k st.messages) ∧
    ((stRecordUserInteraction st uid ufirst uuser uchat now).groups = st.groups ∧
     (stRecordUserInteraction st uid ufirst uuser uchat now).messages = st.messages ∧
     (stRecordUserInteraction st uid ufirst uuser uchat now).topics = st.topics ∧
     ∀ k, k ≠ intToString uid →
       alookup k (stRecordUserInteraction st uid ufirst uuser uchat now).users
         = alookup k st.users) := by
  refine ⟨⟨rfl, rfl, rfl, ?_⟩, ⟨rfl, rfl, rfl, ?_⟩, ⟨rfl, rfl, rfl, ?_, ?_⟩,
    ⟨?_, ?_, ?_, ?_⟩, ⟨rfl, rfl, rfl, ?_⟩, ⟨rfl, rfl, rfl, ?_⟩⟩
  · intro k hk
    exact alookup_dictSet_ne _ _ hk _ _
  · intro k hk
    exact alookup_dictErase_ne _ _ hk _
  · intro k hk
    exact alookup_dictSet_ne _ _ hk _ _
  · intro nm hnm
    show alookup nm ((alookup (intToString chat)
        (add_topic_mapping st.topics chat tname tid)).getD [])
      = alookup nm ((alookup (intToString chat) st.topics).getD [])
    unfold add_topic_mapping
    rw [alookup_dictSet_self]
    simp only [Option.getD_some]
    exact alookup_dictSet_ne _ _ hnm _ _
  · unfold stMarkMessageHandled mark_message_handled
    cases alookup (natToString idx) st.messages <;> rfl
  · unfold stMarkMessageHandled mark_message_handled
    cases alookup (natToString idx) st.messages <;> rfl
  · unfold stMarkMessageHandled mark_message_handled
    cases alookup (natToString idx) st.messages <;> rfl
  · intro k hk
    show alookup k (mark_message_handled st.messages idx admin now).2
      = alookup k st.messages
    cases h : alookup (natToString idx) st.messages with
    | none => simp only [mark_message_handled, h]
    | some r =>
      simp only [mark_message_handled, h]
      exact alookup_dictSet_ne _ _ hk _ _
  · intro k hk
    cases pf with
    | false => exact alookup_dictSet_ne _ _ hk _ _
    | true => exact alookup_dictSet_ne _ _ hk _ _
  · intro k hk
    exact alookup_dictSet_ne _ _ hk _ _

/-- C8 witness: the frame conditions evaluated on a small concrete
state. -/
theorem store_ops_frame_witness :
    (stAddManagedGroup stW 5 "new").users = stW.users ∧
    alookup "other" (stAddManagedGroup stW 5 "new").groups = alookup "other" stW.groups ∧
    alookup "other" (stRemoveManagedGroup stW 5).groups = alookup "other" stW.groups ∧
    alookup "9" (stAddTopicMapping stW 1 "General" 7).topics = alookup "9" stW.topics ∧
    alookup "z" ((alookup (intToString 1) (stAddTopicMapping stW 1 "General" 7).topics).getD [])
      = alookup "z" ((alookup (intToString 1) stW.topics).getD []) ∧
    alookup "junk" (stMarkMessageHandled stW 3 77 100).messages
      = alookup "junk" stW.messages ∧
    alookup "3" (stAddMessageRecord stW msgW 100 false).messages
      = alookup "3" stW.messages ∧
    alookup "3" (stAddMessageRecord stW msgW 100 true).messages
      = alookup "3" stW.messages ∧
    alookup "other" (stRecordUserInteraction stW 5 none none none 100).users
      = alookup "other" stW.users := by
  have h := store_ops_frame stW 5 "new" 1 "General" 7 3 77 msgW 5 none none none 100 false
  have h2 := store_ops_frame stW 5 "new" 1 "General" 7 3 77 msgW 5 none none none 100 true
  exact ⟨h.1.1, h.1.2.2.2 "other" (by decide), h.2.1.2.2.2 "other" (by decide),
    h.2.2.1.2.2.2.1 "9" (by decide), h.2.2.1.2.2.2.2 "z" (by decide),
    h.2.2.2.1.2.2.2 "junk" (by decide),
    h.2.2.2.2.1.2.2.2 "3" (by decide),
    h2.2.2.2.2.1.2.2.2 "3" (by decide),
    h.2.2.2.2.2.2.2.2 "other" (by decide)⟩

/-- C1 counterexample: the claimed resolution order disagrees with the
code. (a) On the quoted numeric token `"5"` with the manual mapping
`{"5": 77}`, the code strips the quotes first and returns `5` from the
numeric step, while the claim — quote-stripping only in step 3 — would
consult the mapping and return `77`. (b) On `general` with mapping
`{"general": 0}` and a live topic `general` of id `42`, the code skips
the falsy mapping entry and returns `42` from the live list, while the
claim — "whenever the manual mapping contains the name, its ID is
returned" — would return `0`. -/
theorem resolve_topic_id_claim_false :
    (_resolve_topic_id (fun s => .ok (alookup s [("5", 77)])) (.ok []) "\"5\""
        = some 5 ∧
      resolveTopicClaimC1 (fun s => .ok (alookup s [("5", 77)])) (.ok []) "\"5\""
        = some 77) ∧
    (_resolve_topic_id (fun s => .ok (alookup s [("general", 0)]))
        (.ok [{ id := 42, title := "general" }]) "general" = some 42 ∧
      resolveTopicClaimC1 (fun s => .ok (alookup s [("general", 0)]))
        (.ok [{ id := 42, title := "general" }]) "general" = some 0) := by
  exact ⟨⟨by decide, by decide⟩, by decide, by decide⟩

/-- C1 (amended): `_resolve_topic_id` implements the amended
resolution order (quote-stripping first, numeric steps on the stripped
token, manual mapping before live list with truthiness), and whenever
the manual mapping holds a nonzero id for the stripped token the live
topic list is never consulted — the result is the same for every live
oracle. -/
theorem resolve_topic_id_amended_spec :
    (∀ lk lv token, _resolve_topic_id lk lv token = resolveTopicAmendedC1 lk lv token) ∧
    (∀ lk lv lv' token id, lk (stripQuotes token) = .ok (some id) → id ≠ 0 →
      _resolve_topic_id lk lv token = _resolve_topic_id lk lv' token) := by
  constructor
  · intro lk lv token
    by_cases hs : pyStartsWith "topic_" (stripQuotes token)
    · cases hp : parsePyInt (afterUnderscoreSeg (stripQuotes token)) with
      | some tid => simp [_resolve_topic_id, resolveTopicAmendedC1, hs, hp]
      | none => simp [_resolve_topic_id, resolveTopicAmendedC1, hs, hp, resolveByName]
    · by_cases hd : pyIsdigit (stripQuotes token)
      · simp [_resolve_topic_id, resolveTopicAmendedC1, hs, hd]
      · simp [_resolve_topic_id, resolveTopicAmendedC1, hs, hd, resolveByName]
  · intro lk lv lv' token id hmap hid
    by_cases hs : pyStartsWith "topic_" (stripQuotes token)
    · cases hp : parsePyInt (afterUnderscoreSeg (stripQuotes token)) with
      | some tid => simp [_resolve_topic_id, hs, hp]
      | none => simp [_resolve_topic_id, hs, hp, resolveByName, hmap, pyTruthy, hid]
    · by_cases hd : pyIsdigit (stripQuotes token)
      · simp [_resolve_topic_id, hs, hd]
      · simp [_resolve_topic_id, hs, hd, resolveByName, hmap, pyTruthy, hid]

/-- C1 witness: the equivalence evaluated on `topic_12`, and
live-list independence on a mapping hit. -/
theorem resolve_topic_id_amended_spec_witness :
    _resolve_topic_id (fun _ => .ok none) (.ok []) "topic_12"
      = resolveTopicAmendedC1 (fun _ => .ok none) (.ok []) "topic_12" ∧
    _resolve_topic_id (fun s => .ok (alookup s [("general", 9)])) (.ok []) "general"
      = _resolve_topic_id (fun s => .ok (alookup s [("general", 9)])) (.error ())
          "general" := by
  exact ⟨resolve_topic_id_amended_spec.1 (fun _ => .ok none) (.ok []) "topic_12",
    resolve_topic_id_amended_spec.2 (fun s => .ok (alookup s [("general", 9)]))
      (.ok []) (.error ()) "general" 9 rfl (by decide)⟩

/-- C5: `_resolve_topic_id` is total and error-contained — a failing
manual-mapping lookup makes the result independent of the live oracle
(name resolution yields "not found"), a failing live query behaves
exactly like an empty topic list, and when no alternative matches
(numeric forms absent, mapping entry falsy, no live title match) the
function returns `none` rather than raising. -/
theorem resolve_topic_id_total :
    (∀ lv lv' token, _resolve_topic_id (fun _ => .error ()) lv token
        = _resolve_topic_id (fun _ => .error ()) lv' token) ∧
    (∀ lk token, _resolve_topic_id lk (.error ()) token
        = _resolve_topic_id lk (.ok []) token) ∧
    (∀ (mapping : String → Option Int) (ts : List ForumTopic) (token : String),
      (pyStartsWith "topic_" (stripQuotes token) = true →
        parsePyInt (afterUnderscoreSeg (stripQuotes token)) = none) →
      pyIsdigit (stripQuotes token) = false →
      pyTruthy (mapping (stripQuotes token)) = false →
      findLiveTopic (stripQuotes token) ts = none →
      _resolve_topic_id (fun s => .ok (mapping s)) (.ok ts) token = none) := by
  refine ⟨?_, ?_, ?_⟩
  · intro lv lv' token
    by_cases hs : pyStartsWith "topic_" (stripQuotes token)
    · cases hp : parsePyInt (afterUnderscoreSeg (stripQuotes token)) with
      | some tid => simp [_resolve_topic_id, hs, hp]
      | none => simp [_resolve_topic_id, hs, hp, resolveByName]
    · by_cases hd : pyIsdigit (stripQuotes token)
      · simp [_resolve_topic_id, hs, hd]
      · simp [_resolve_topic_id, hs, hd, resolveByName]
  · intro lk token
    have hname : resolveByName lk (.error ()) (stripQuotes token)
        = resolveByName lk (.ok []) (stripQuotes token) := by
      cases hlk : lk (stripQuotes token) with
      | error e => simp [resolveByName, hlk]
      | ok m =>
        by_cases hm : pyTruthy m
        · simp [resolveByName, hlk, hm]
        · simp [resolveByName, hlk, hm, findLiveTopic]
    by_cases hs : pyStartsWith "topic_" (stripQuotes token)
    · cases hp : parsePyInt (afterUnderscoreSeg (stripQuotes token)) with
      | some tid => simp [_resolve_topic_id, hs, hp]
      | none => simp only [_resolve_topic_id, hs, if_true, hp]; exact hname
    · by_cases hd : pyIsdigit (stripQuotes token)
      · simp [_resolve_topic_id, hs, hd]
      · simp only [_resolve_topic_id, hs, Bool.false_eq_true, if_false, hd]
        exact hname
  · intro mapping ts token hp hd hm hfind
    have hname : resolveByName (fun s => .ok (mapping s)) (.ok ts) (stripQuotes token)
        = none := by
      simp [resolveByName, hm, hfind]
    by_cases hs : pyStartsWith "topic_" (stripQuotes token)
    · simp only [_resolve_topic_id, hs, if_true, hp hs]
      exact hname
    · simp only [_resolve_topic_id, hs, Bool.false_eq_true, if_false, hd]
      exact hname

/-- C5 witness: the containment facts evaluated at concrete oracles
and tokens. -/
theorem resolve_topic_id_total_witness :
    _resolve_topic_id (fun _ => .error ()) (.ok [{ id := 1, title := "a" }]) "x"
      = _resolve_topic_id (fun _ => .error ()) (.error ()) "x" ∧
    _resolve_topic_id (fun _ => .ok (some 0)) (.error ()) "x"
      = _resolve_topic_id (fun _ => .ok (some 0)) (.ok []) "x" ∧
    _resolve_topic_id (fun s => .ok ((fun _ => (none : Option Int)) s))
      (.ok [{ id := 1, title := "a" }]) "nope" = none := by
  exact ⟨resolve_topic_id_total.1 (.ok [{ id := 1, title := "a" }]) (.error ()) "x",
    resolve_topic_id_total.2.1 (fun _ => .ok (some 0)) "x",
    resolve_topic_id_total.2.2 (fun _ => none) [{ id := 1, title := "a" }] "nope"
      (by decide) (by decide) (by decide) (by decide)⟩

/-- C6: when topic resolution yields "not found", both `/say` and
`/send_photo` warn the invoking admin and still perform the send with
no topic/thread id instead of aborting. -/
theorem handlers_send_without_topic :
    (∀ (groups : GroupsStore) (resolve : String → Option Int) (args : List String)
        (g ngid : Int) (gstr : String) (b : Bool),
      4 ≤ args.length →
      (!pyStartsWith "topic_" (args.getD 2 "")
        && (!pyIsdigit (args.getD 2 "") || decide (3 < (args.getD 2 "").length))) = true →
      _get_group_id_from_index groups (args.getD 1 "") = some (g, gstr, b) →
      _normalize_group_id gstr = some ngid →
      resolve (args.getD 2 "") = none →
      handle_say groups resolve args
        = ⟨false, false, true, some (ngid, args.getD 3 "", none)⟩) ∧
    (∀ (groups : GroupsStore) (resolve : String → Option Int) (args : List String)
        (g ngid : Int) (gstr : String) (b hasPhoto : Bool),
      3 ≤ args.length →
      _get_group_id_from_index groups (args.getD 1 "") = some (g, gstr, b) →
      _normalize_group_id gstr = some ngid →
      (dictMem gstr groups || dictMem (intToString ngid) groups) = true →
      resolve (args.getD 2 "") = none →
      handle_send_photo groups resolve args true hasPhoto
        = ⟨false, false, false, true, some (ngid, none), false⟩) := by
  constructor
  · intro groups resolve args g ngid gstr b hlen hcond hg hn hr
    have h3 : ¬ args.length < 3 := by omega
    simp only [handle_say]
    rw [if_neg h3, if_pos hlen, if_pos hcond]
    simp only [hg, hn, hr]
    simp [pyTruthy]
  · intro groups resolve args g ngid gstr b hasPhoto hlen hg hn hmem hr
    have h2 : ¬ args.length < 2 := by omega
    have hmem2 : ¬ ((!(dictMem gstr groups
        || dictMem (intToString ngid) groups)) = true) := by
      simp [hmem]
    simp only [handle_send_photo]
    rw [if_neg h2]
    simp only [hg, hn]
    rw [if_neg hmem2, if_pos hlen]
    simp only [hr]
    simp [pyTruthy]

/-- C6 witness: a concrete managed group, a resolver that finds
nothing, and the tokens of `/say 42 myTopic hello` and
`/send_photo 42 myTopic`. -/
theorem handlers_send_without_topic_witness :
    handle_say [("42", { name := "g", restrictions := [] })] (fun _ => none)
        ["/say", "42", "myTopic", "hello"]
      = ⟨false, false, true, some (-1000000000042, "hello", none)⟩ ∧
    handle_send_photo [("42", { name := "g", restrictions := [] })] (fun _ => none)
        ["/send_photo", "42", "myTopic"] true false
      = ⟨false, false, false, true, some (-1000000000042, none), false⟩ := by
  exact ⟨handlers_send_without_topic.1 _ _ _ 42 (-1000000000042) "42" false
      (by decide) (by decide) (by decide) (by decide) rfl,
    handlers_send_without_topic.2 _ _ _ 42 (-1000000000042) "42" false false
      (by decide) (by decide) (by decide) (by decide) rfl⟩

end SigmaChan
